import Mathlib

/-!
Verification of the QRNN implementation in `src/torchqrnn/qrnn.py`
(pytorch-qrnn-bidirecional).

Tensors are modelled as rational-valued arrays: a 3-d tensor of shape
`(n, b, d)` (time, batch, feature) carries its three sizes together with a
total indexing function; entries outside the declared bounds are irrelevant
junk, and every theorem that inspects data does so at in-bounds indices or at
indices the underlying operation determines totally.  External numeric
primitives (tanh, sigmoid, sampled Bernoulli masks for zoneout and dropout)
are passed in as parameters, mirroring the spec, which treats the numeric
library and the differentiation engine as external collaborators.
-/

/-- A 2-d tensor of shape `(b, d)`, e.g. a hidden state `(batch, hidden)`. -/
structure Tensor2 where
  b : ℕ
  d : ℕ
  data : ℕ → ℕ → ℚ

/-- A 3-d tensor of shape `(n, b, d)` = (seq_len, batch, features). -/
structure Tensor3 where
  n : ℕ
  b : ℕ
  d : ℕ
  data : ℕ → ℕ → ℕ → ℚ

/-- Embeds `torch.cat([x, y], 0)`: concatenation along the time axis.  As in torch,
the non-concatenated sizes are taken from the first argument (torch requires
them to agree). -/
def catDim0 (x y : Tensor3) : Tensor3 :=
  ⟨x.n + y.n, x.b, x.d, fun t bb k => if t < x.n then x.data t bb k else y.data (t - x.n) bb k⟩

/-- Embeds `torch.cat([x, y], 2)` (= `dim=-1` on a 3-d tensor): concatenation along
the feature axis. -/
def catDim2 (x y : Tensor3) : Tensor3 :=
  ⟨x.n, x.b, x.d + y.d, fun t bb k => if k < x.d then x.data t bb k else y.data t bb (k - x.d)⟩

/-- Embeds `torch.flip(x, [0])`: reversal along the time axis. -/
def flipDim0 (x : Tensor3) : Tensor3 :=
  ⟨x.n, x.b, x.d, fun t bb k => x.data (x.n - 1 - t) bb k⟩

/-- The slice `x[:1, :, :]`. -/
def takeFirst (x : Tensor3) : Tensor3 :=
  ⟨min 1 x.n, x.b, x.d, x.data⟩

/-- The slice `x[:-1, :, :]`. -/
def dropLastT (x : Tensor3) : Tensor3 :=
  ⟨x.n - 1, x.b, x.d, x.data⟩

/-- The slice `x[-1:, :, :]`. -/
def lastSlice (x : Tensor3) : Tensor3 :=
  ⟨min 1 x.n, x.b, x.d, fun _ bb k => x.data (x.n - 1) bb k⟩

/-- Elementwise map (e.g. a scalar function such as `* 0` or an activation
applied to a whole tensor). -/
def mapT (f : ℚ → ℚ) (x : Tensor3) : Tensor3 :=
  ⟨x.n, x.b, x.d, fun t bb k => f (x.data t bb k)⟩

/-- Elementwise combination of two tensors of equal shape (shape taken from
the first, as torch broadcasting is not exercised here). -/
def zipT (f : ℚ → ℚ → ℚ) (x y : Tensor3) : Tensor3 :=
  ⟨x.n, x.b, x.d, fun t bb k => f (x.data t bb k) (y.data t bb k)⟩

/-- The `None` tensor: stands for a Python value that no well-formed run of
the claims ever produces (e.g. `source` when `window` is outside `{1, 2}`,
which the constructor assertion rules out). -/
def noneTensor : Tensor3 := ⟨0, 0, 0, fun _ _ _ => 0⟩

/-- Embeds `torch.nn.Linear`: an affine map applied along the last axis, with
out-of-range weight entries irrelevant. -/
structure LinearT where
  inF : ℕ
  outF : ℕ
  w : ℕ → ℕ → ℚ
  bias : ℕ → ℚ

/-- Apply a linear layer along the feature axis of a 3-d tensor. -/
def LinearT.apply (L : LinearT) (x : Tensor3) : Tensor3 :=
  ⟨x.n, x.b, L.outF, fun t bb j =>
    (∑ i in Finset.range L.inF, L.w j i * x.data t bb i) + L.bias j⟩

/-- Embeds `y.view(nn, bb, dd)`: row-major reshape to the given sizes. -/
def viewAs (nn bb dd : ℕ) (x : Tensor3) : Tensor3 :=
  ⟨nn, bb, dd, fun t b2 k =>
    let flat := t * (bb * dd) + b2 * dd + k
    x.data (flat / (x.b * x.d)) (flat % (x.b * x.d) / x.d) (flat % x.d)⟩

/-- Embeds `y.chunk(parts, dim=2)`, selecting chunk `idx`; chunk sizes are
`y.d / parts` (the feature size is always an exact multiple here). -/
def chunkDim2 (x : Tensor3) (parts idx : ℕ) : Tensor3 :=
  ⟨x.n, x.b, x.d / parts, fun t bb k => x.data t bb (idx * (x.d / parts) + k)⟩

/-- The slice `hidden[i]` on a stacked `(layers, batch, hidden)` tensor. -/
def sliceLayer (h : Tensor3) (i : ℕ) : Tensor2 :=
  ⟨h.b, h.d, fun bb k => h.data i bb k⟩

/-! ## The forget-mult recurrence scan

`qrnn.py` imports `ForgetMult` from `forget_mult.py`, which is not part of
src/; everything in this section is therefore modelled from the spec
(§4.4): the scan computes `C[t] = F[t] * Z[t] + (1 - F[t]) * C[t-1]` with
`C[-1]` the supplied hidden state or zero, under two interchangeable
execution strategies selected by `use_cuda` (a plain sequential loop, and a
fused/accelerated evaluation exploiting elementwise parallelism).  The scan
is elementwise per (batch, unit) channel, so the per-channel scalar
recurrences below are the whole story. -/

/-- Modelled from the spec: one cell of the recurrence,
`C[t] = F[t] * Z[t] + (1 - F[t]) * C[t-1]` (§4.4; `forget_mult.py` is not
under src/). -/
def forgetMultCell (f z c : ℚ) : ℚ := f * z + (1 - f) * c

/-- Modelled from the spec: the sequential per-timestep loop strategy of the
scan, on one (batch, unit) channel (§4.4 strategy (a); `forget_mult.py` is
not under src/).  `seqScan f z c0 t` is `C[t]`. -/
def seqScan (f z : ℕ → ℚ) (c0 : ℚ) : ℕ → ℚ
  | 0 => forgetMultCell (f 0) (z 0) c0
  | t + 1 => forgetMultCell (f (t + 1)) (z (t + 1)) (seqScan f z c0 t)

/-- Modelled from the spec: the fused/accelerated strategy of the scan on one
channel, evaluating the recurrence in closed form
`C[t] = Σ_{s ≤ t} F[s] Z[s] Π_{s < u ≤ t} (1 - F[u]) + Π_{u ≤ t} (1 - F[u]) · C₋₁`
(§4.4 strategy (b); `forget_mult.py` is not under src/). -/
def accelScan (f z : ℕ → ℚ) (c0 : ℚ) (t : ℕ) : ℚ :=
  (∑ s in Finset.range (t + 1), f s * z s * ∏ u in Finset.Ioc s t, (1 - f u))
    + (∏ u in Finset.range (t + 1), (1 - f u)) * c0

/-- Modelled from the spec: the tensor-level scan as invoked at
`qrnn.py:113`, `ForgetMult()(F, Z, hidden, use_cuda=...)`: the `use_cuda`
flag selects the accelerated strategy, otherwise the sequential loop; a
missing hidden state means an all-zero initial state (§4.4;
`forget_mult.py` is not under src/). -/
def ForgetMult.run (F Z : Tensor3) (hidden : Option Tensor2) (use_cuda : Bool) : Tensor3 :=
  let h0 : ℕ → ℕ → ℚ := match hidden with
    | some h => h.data
    | none => fun _ _ => 0
  if use_cuda then
    ⟨F.n, F.b, F.d, fun t bb k =>
      accelScan (fun s => F.data s bb k) (fun s => Z.data s bb k) (h0 bb k) t⟩
  else
    ⟨F.n, F.b, F.d, fun t bb k =>
      seqScan (fun s => F.data s bb k) (fun s => Z.data s bb k) (h0 bb k) t⟩

/-- Aggregated absolute difference between two equally-shaped tensors, as in
the `(Y - Z).sum()` comparison of the source's self-test (lines 252-254). -/
def aggAbsDiff (x y : Tensor3) : ℚ :=
  ∑ t in Finset.range x.n, ∑ bb in Finset.range x.b, ∑ k in Finset.range x.d,
    |x.data t bb k - y.data t bb k|

/-! ## Reverse-mode gradients of the two scan strategies

Modelled from the spec (§4.4, §6): the differentiation engine is an external
collaborator, and `forget_mult.py` with its backward code is not under src/.
Reverse-mode differentiation of each strategy is modelled structurally: for
the sequential loop, the adjoint recurrence that back-propagates through the
loop body from the last timestep to the first; for the fused strategy, the
partial derivatives of the closed form.  `g t` is the upstream gradient
`∂L/∂C[t]`; `n` is the sequence length. -/

/-- The adjoint accumulator of the sequential loop with `m` remaining
backward steps: `δ[t] = g t + (1 - f (t+1)) * δ[t+1]`, `δ[n-1] = g (n-1)`. -/
def seqDeltaAux (f g : ℕ → ℚ) : ℕ → ℕ → ℚ
  | 0, t => g t
  | m + 1, t => g t + (1 - f (t + 1)) * seqDeltaAux f g m (t + 1)

/-- The adjoint `∂L/∂C[t]` including all downstream timesteps, as the reverse sweep of
the sequential loop computes it. -/
def seqDelta (f g : ℕ → ℚ) (n t : ℕ) : ℚ := seqDeltaAux f g (n - 1 - t) t

/-- Sequential strategy, gradient w.r.t. `Z[t]`: the loop body contributes
`∂C[t]/∂Z[t] = F[t]`. -/
def seqGradZ (f g : ℕ → ℚ) (n t : ℕ) : ℚ := f t * seqDelta f g n t

/-- Sequential strategy, gradient w.r.t. `F[t]`: the loop body contributes
`∂C[t]/∂F[t] = Z[t] - C[t-1]`. -/
def seqGradF (f z g : ℕ → ℚ) (c0 : ℚ) (n t : ℕ) : ℚ :=
  (z t - (if t = 0 then c0 else seqScan f z c0 (t - 1))) * seqDelta f g n t

/-- Sequential strategy, gradient w.r.t. the initial state `C₋₁`. -/
def seqGradC0 (f g : ℕ → ℚ) (n : ℕ) : ℚ := (1 - f 0) * seqDelta f g n 0

/-- The adjoint `∂L/∂C[t]` as the fused strategy computes it, directly as a sum over the
downstream timesteps of the closed form. -/
def accelDelta (f g : ℕ → ℚ) (n t : ℕ) : ℚ :=
  ∑ s in Finset.Icc t (n - 1), g s * ∏ u in Finset.Ioc t s, (1 - f u)

/-- Fused strategy, gradient w.r.t. `Z[t]`: from the closed form,
`∂C[s]/∂Z[t] = F[t] * Π_{t < u ≤ s} (1 - F[u])` for `s ≥ t`. -/
def accelGradZ (f g : ℕ → ℚ) (n t : ℕ) : ℚ :=
  ∑ s in Finset.Icc t (n - 1), g s * (f t * ∏ u in Finset.Ioc t s, (1 - f u))

/-- Fused strategy, gradient w.r.t. `F[t]`: differentiating every term of the
closed form for `C[s]` in which `F[t]` occurs. -/
def accelGradF (f z g : ℕ → ℚ) (c0 : ℚ) (n t : ℕ) : ℚ :=
  ∑ s in Finset.Icc t (n - 1), g s *
    (z t * ∏ u in Finset.Ioc t s, (1 - f u)
      - (∑ r in Finset.range t, f r * z r * ∏ u in (Finset.Ioc r s).erase t, (1 - f u))
      - c0 * ∏ u in (Finset.range (s + 1)).erase t, (1 - f u))

/-- Fused strategy, gradient w.r.t. `C₋₁`: from the closed form,
`∂C[s]/∂C₋₁ = Π_{u ≤ s} (1 - F[u])`. -/
def accelGradC0 (f g : ℕ → ℚ) (n : ℕ) : ℚ :=
  ∑ s in Finset.range n, g s * ∏ u in Finset.range (s + 1), (1 - f u)

/-! ## QRNNLayer (qrnn.py lines 12-125)

The layer is embedded as a pure structure; the mutable `self.prevX` cache is
a field, and `forward` returns the updated layer alongside its outputs
(explicit state passing for the instance mutation at line 123).  The tanh and
sigmoid activations are external primitives (spec §6) and are passed in as an
`Activations` record; the Bernoulli draw of the zoneout mask (line 100) is an
external sample and is passed in as a mask function. -/

/-- The pair of external elementwise activations used by the layer. -/
structure Activations where
  sigmoid : ℚ → ℚ
  tanh : ℚ → ℚ

/-- Python truthiness of the `hidden_size` argument (line 39 / line 137:
`hidden_size if hidden_size else input_size`): `None` and `0` are falsy. -/
def pyFalsyNat : Option ℕ → Bool
  | none => true
  | some 0 => true
  | some (_ + 1) => false

structure QRNNLayer where
  input_size : ℕ
  hidden_size : ℕ
  zoneout : ℚ
  save_prev_x : Bool
  window : ℕ
  output_gate : Bool
  use_cuda : Bool
  prevX : Option Tensor3
  linear : LinearT

/-- Lines 37-47 of `QRNNLayer.__init__` (after the window assertion):
`self.hidden_size = hidden_size if hidden_size else input_size`, `prevX`
starts empty, and one fused linear of input width `window * input_size` and
output width `(3 if output_gate else 2) * hidden_size`.  The weight matrix
and bias of `nn.Linear` are externally initialized parameters, passed in. -/
def mkQRNNLayer (input_size : ℕ) (hidden_size : Option ℕ) (save_prev_x : Bool)
    (zoneout : ℚ) (window : ℕ) (output_gate use_cuda : Bool)
    (w : ℕ → ℕ → ℚ) (bias : ℕ → ℚ) : QRNNLayer :=
  let hs := if pyFalsyNat hidden_size then input_size else hidden_size.getD 0
  { input_size := input_size
    hidden_size := hs
    zoneout := zoneout
    save_prev_x := save_prev_x
    window := window
    output_gate := output_gate
    use_cuda := use_cuda
    prevX := none
    linear := ⟨window * input_size, (if output_gate then 3 else 2) * hs, w, bias⟩ }

/-- Line 36: `assert window in [1, 2]`; construction fails otherwise. -/
def QRNNLayer.init (input_size : ℕ) (hidden_size : Option ℕ) (save_prev_x : Bool)
    (zoneout : ℚ) (window : ℕ) (output_gate use_cuda : Bool)
    (w : ℕ → ℕ → ℚ) (bias : ℕ → ℚ) : Except String QRNNLayer :=
  if window = 1 ∨ window = 2 then
    .ok (mkQRNNLayer input_size hidden_size save_prev_x zoneout window output_gate use_cuda
      w bias)
  else
    .error "This QRNN implementation currently only handles convolutional window of size 1 or size 2"

/-- Line 49-51: `reset` clears the cached previous input. -/
def QRNNLayer.reset (l : QRNNLayer) : QRNNLayer := { l with prevX := none }

/-- Lines 74-79: the shifted tensor `Xm1`.  The boundary row is the cached
`prevX` when present, else `X[:1, :, :] * 0`; rows `X[:-1, :, :]` are added
only when `len(X) > 1` (the comment at line 76 notes that slicing an empty
tensor must be avoided when `len(X) == 1`). -/
def QRNNLayer.shiftedXm1 (l : QRNNLayer) (X : Tensor3) : Tensor3 :=
  let head := match l.prevX with
    | some p => p
    | none => mapT (fun v => v * 0) (takeFirst X)
  if 1 < X.n then catDim0 head (dropLastT X) else head

/-- Lines 69-81: the windowed projection input: `X` itself for `window == 1`;
`cat([X, Xm1], 2)` for `window == 2`.  Any other window leaves `source =
None` in the Python (excluded by the constructor assertion). -/
def QRNNLayer.source (l : QRNNLayer) (X : Tensor3) : Tensor3 :=
  if l.window = 1 then X
  else if l.window = 2 then catDim2 X (l.shiftedXm1 X)
  else noneTensor

/-- Line 84: `Y = self.linear(source)`. -/
def QRNNLayer.preGates (l : QRNNLayer) (X : Tensor3) : Tensor3 :=
  l.linear.apply (l.source X)

/-- Lines 86-90: `Y.view(seq_len, batch_size, (3 or 2) * hidden_size)`. -/
def QRNNLayer.viewedY (l : QRNNLayer) (X : Tensor3) : Tensor3 :=
  viewAs X.n X.b ((if l.output_gate then 3 else 2) * l.hidden_size) (l.preGates X)

/-- Lines 88/91: first chunk of `Y.chunk(3 or 2, dim=2)`: the candidate
pre-activation `Z`. -/
def QRNNLayer.chunkZ (l : QRNNLayer) (X : Tensor3) : Tensor3 :=
  chunkDim2 (l.viewedY X) (if l.output_gate then 3 else 2) 0

/-- Lines 88/91: second chunk: the forget-gate pre-activation `F`. -/
def QRNNLayer.chunkF (l : QRNNLayer) (X : Tensor3) : Tensor3 :=
  chunkDim2 (l.viewedY X) (if l.output_gate then 3 else 2) 1

/-- Line 88: third chunk (only meaningful with the output gate): `O`. -/
def QRNNLayer.chunkO (l : QRNNLayer) (X : Tensor3) : Tensor3 :=
  chunkDim2 (l.viewedY X) 3 2

/-- Line 93: `Z = tanh(Z)`. -/
def QRNNLayer.gateZ (l : QRNNLayer) (act : Activations) (X : Tensor3) : Tensor3 :=
  mapT act.tanh (l.chunkZ X)

/-- Lines 96-103: the zoneout stage on the sigmoid-activated forget gate.
`if self.zoneout:` is Python truthiness, so a zero probability skips the
stage entirely; in training mode the gate is multiplied elementwise by the
externally sampled Bernoulli(1 - p) mask, otherwise it is scaled by
`1 - p`. -/
def applyZoneout (p : ℚ) (training : Bool) (mask : ℕ → ℕ → ℕ → ℚ) (F : Tensor3) : Tensor3 :=
  if p = 0 then F
  else match training with
    | true => ⟨F.n, F.b, F.d, fun t bb k => F.data t bb k * mask t bb k⟩
    | false => mapT (fun v => v * (1 - p)) F

/-- Lines 94-103: `F = sigmoid(F)` followed by the zoneout stage.  The
`contiguous()` calls at lines 107-108 only affect memory layout and are
no-ops in this model. -/
def QRNNLayer.gateF (l : QRNNLayer) (act : Activations) (training : Bool)
    (mask : ℕ → ℕ → ℕ → ℚ) (X : Tensor3) : Tensor3 :=
  applyZoneout l.zoneout training mask (mapT act.sigmoid (l.chunkF X))

/-- Line 113: `C = ForgetMult()(F, Z, hidden, use_cuda=self.use_cuda)`. -/
def QRNNLayer.scanC (l : QRNNLayer) (act : Activations) (training : Bool)
    (mask : ℕ → ℕ → ℕ → ℚ) (X : Tensor3) (hidden : Option Tensor2) : Tensor3 :=
  ForgetMult.run (l.gateF act training mask X) (l.gateZ act X) hidden l.use_cuda

/-- Lines 53-125: the whole forward pass on a well-formed `(seq_len, batch,
features)` input (the try/except entry of lines 55-63 is modelled separately
by `extractDims`).  Returns `(H, C[-1:, :, :])` together with the updated
layer: line 123 stores the gradient-detached `X[-1:, :, :]` as the new
`prevX` when `window > 1 and save_prev_x`. -/
def QRNNLayer.forward (l : QRNNLayer) (act : Activations) (training : Bool)
    (mask : ℕ → ℕ → ℕ → ℚ) (X : Tensor3) (hidden : Option Tensor2) :
    Tensor3 × Tensor3 × QRNNLayer :=
  let C := l.scanC act training mask X hidden
  let H := if l.output_gate then zipT (fun o c => act.sigmoid o * c) (l.chunkO X) C else C
  let l2 := if 1 < l.window ∧ l.save_prev_x then { l with prevX := some (lastSlice X) } else l
  (H, lastSlice C, l2)

/-! ## BiDirQRNNLayer (qrnn.py lines 127-157) -/

structure BiDirQRNNLayer where
  input_size : ℕ
  hidden_size : ℕ
  zoneout : ℚ
  save_prev_x : Bool
  window : ℕ
  output_gate : Bool
  use_cuda : Bool
  prevX : Option Tensor3
  forward_qrnn : QRNNLayer
  backward_qrnn : QRNNLayer

/-- Lines 135-147 of `BiDirQRNNLayer.__init__` (after the window assertion):
the same falsy `hidden_size` resolution as `QRNNLayer`, an own (never used)
`prevX = None`, and two independently-parameterized sub-layers that receive
the raw `hidden_size` argument. -/
def mkBiDirQRNNLayer (input_size : ℕ) (hidden_size : Option ℕ) (save_prev_x : Bool)
    (zoneout : ℚ) (window : ℕ) (output_gate use_cuda : Bool)
    (wf : ℕ → ℕ → ℚ) (bf : ℕ → ℚ) (wb : ℕ → ℕ → ℚ) (bb2 : ℕ → ℚ) : BiDirQRNNLayer :=
  { input_size := input_size
    hidden_size := if pyFalsyNat hidden_size then input_size else hidden_size.getD 0
    zoneout := zoneout
    save_prev_x := save_prev_x
    window := window
    output_gate := output_gate
    use_cuda := use_cuda
    prevX := none
    forward_qrnn :=
      mkQRNNLayer input_size hidden_size save_prev_x zoneout window output_gate use_cuda wf bf
    backward_qrnn :=
      mkQRNNLayer input_size hidden_size save_prev_x zoneout window output_gate use_cuda wb bb2 }

/-- Lines 149-157: `forward` runs the forward sub-layer on `X` and the
backward sub-layer on `torch.flip(X, [0])`, passing the same caller-supplied
hidden (or none) to both, re-reverses the backward output, and concatenates
outputs and final hiddens along the last axis.  Each sub-layer has its own
zoneout sample. -/
def BiDirQRNNLayer.forward (l : BiDirQRNNLayer) (act : Activations) (training : Bool)
    (maskf maskb : ℕ → ℕ → ℕ → ℚ) (X : Tensor3) (hidden : Option Tensor2) :
    Tensor3 × Tensor3 × BiDirQRNNLayer :=
  let rf := l.forward_qrnn.forward act training maskf X hidden
  let rb := l.backward_qrnn.forward act training maskb (flipDim0 X) hidden
  let bwd := flipDim0 rb.1
  (catDim2 rf.1 bwd, catDim2 rf.2.1 rb.2.1,
    { l with forward_qrnn := rf.2.2, backward_qrnn := rb.2.2 })

/-! ## QRNN stack (qrnn.py lines 159-224) -/

/-- One unit of the stack: either a plain `QRNNLayer` or a
`BiDirQRNNLayer`. -/
inductive StackLayer
  | uni (l : QRNNLayer)
  | bi (l : BiDirQRNNLayer)

/-- The Python attribute lookup `layer.reset`: `QRNNLayer` defines `reset`
(line 49); the `BiDirQRNNLayer` class body (lines 127-157) defines only
`__init__` and `forward`, and `nn.Module` has no `reset` either, so the
lookup fails there. -/
def StackLayer.resetAttr : StackLayer → Option StackLayer
  | .uni l => some (.uni l.reset)
  | .bi _ => none

/-- The visible output width of one stack unit. -/
def StackLayer.outWidth : StackLayer → ℕ
  | .uni l => l.hidden_size
  | .bi l => l.forward_qrnn.hidden_size + l.backward_qrnn.hidden_size

/-- One unit's forward: a plain layer consumes one zoneout sample, a
bidirectional unit one per direction. -/
def StackLayer.fwd (u : StackLayer) (act : Activations) (training : Bool)
    (masks : (ℕ → ℕ → ℕ → ℚ) × (ℕ → ℕ → ℕ → ℚ)) (x : Tensor3) (h : Option Tensor2) :
    Tensor3 × Tensor3 × StackLayer :=
  match u with
  | .uni l =>
      let r := l.forward act training masks.1 x h
      (r.1, r.2.1, .uni r.2.2)
  | .bi l =>
      let r := l.forward act training masks.1 masks.2 x h
      (r.1, r.2.1, .bi r.2.2)

structure QRNN where
  layers : List StackLayer
  input_size : ℕ
  hidden_size : ℕ
  num_layers : ℕ
  bias : Bool
  batch_first : Bool
  dropout : ℚ
  bidirectional : Bool

/-- Lines 182-206 of `QRNN.__init__`: asserts reject `batch_first` and
`bias=False`; the layer list is either the preconstructed one or, per
`bidirectional`, `num_layers` default units whose input width is
`input_size` for layer 0 and `hidden_size * 2` (bidirectional) or
`hidden_size` otherwise, each receiving `hidden_size` positionally;
`num_layers` is `len(layers)` when a list was given.  `kwargs` of the
default units and the external weight initialization are passed in
(`wgen l` gives the four weight functions of unit `l`). -/
def mkQRNN (input_size hidden_size : ℕ) (num_layers : ℕ) (bias batch_first : Bool)
    (dropout : ℚ) (bidirectional : Bool) (layers : Option (List StackLayer))
    (save_prev_x : Bool) (zoneout : ℚ) (window : ℕ) (output_gate use_cuda : Bool)
    (wgen : ℕ → (ℕ → ℕ → ℚ) × (ℕ → ℚ) × (ℕ → ℕ → ℚ) × (ℕ → ℚ)) :
    Except String QRNN :=
  if batch_first then .error "Batch first mode is not yet supported"
  else if bias = false then .error "Removing underlying bias is not yet supported"
  else
    .ok
      { layers := match layers with
          | some ls => ls
          | none =>
              if bidirectional then
                (List.range num_layers).map fun l =>
                  .bi (mkBiDirQRNNLayer (if l = 0 then input_size else hidden_size * 2)
                    (some hidden_size) save_prev_x zoneout window output_gate use_cuda
                    (wgen l).1 (wgen l).2.1 (wgen l).2.2.1 (wgen l).2.2.2)
              else
                (List.range num_layers).map fun l =>
                  .uni (mkQRNNLayer (if l = 0 then input_size else hidden_size)
                    (some hidden_size) save_prev_x zoneout window output_gate use_cuda
                    (wgen l).1 (wgen l).2.1)
        input_size := input_size
        hidden_size := hidden_size
        num_layers := match layers with
          | some ls => ls.length
          | none => num_layers
        bias := bias
        batch_first := batch_first
        dropout := dropout
        bidirectional := bidirectional }

/-- Lines 208-210: `[layer.reset() for layer in self.layers]` — each
constituent unit's `reset` attribute is looked up and called; the first unit
without such an attribute raises. -/
def QRNN.resetLayers : List StackLayer → Except String (List StackLayer)
  | [] => .ok []
  | u :: us =>
    match u.resetAttr with
    | some u2 => (QRNN.resetLayers us).map (u2 :: ·)
    | none => .error "AttributeError: BiDirQRNNLayer object has no attribute reset"

def QRNN.reset (q : QRNN) : Except String QRNN :=
  (QRNN.resetLayers q.layers).map fun ls => { q with layers := ls }

/-- Embeds `torch.nn.functional.dropout` (line 220), an external primitive (spec
§6, §4.7): in training mode each element is multiplied by the externally
sampled Bernoulli keep-mask and rescaled by `1 / (1 - p)`; outside training
the input passes through unchanged. -/
def dropoutFn (p : ℚ) (training : Bool) (mask : ℕ → ℕ → ℕ → ℚ) (x : Tensor3) : Tensor3 :=
  match training with
  | true => ⟨x.n, x.b, x.d, fun t bb k => x.data t bb k * mask t bb k / (1 - p)⟩
  | false => x

/-- Embeds `torch.cat(next_hidden, 0)` over the collected per-layer hiddens
(line 222). -/
def catList : List Tensor3 → Tensor3
  | [] => noneTensor
  | x :: xs => catDim0 x (catList xs)

/-- Lines 213-220: the loop of `QRNN.forward`.  `i` is the running layer
index, `L` the layer count used by the dropout guard `i < len(self.layers) -
1`, `hidden` the optional stacked `(layers, batch, hidden)` initial state of
which unit `i` receives slice `i`; `zm i` and `dm i` are the externally
sampled zoneout and dropout masks of step `i`.  Returns the final inter-layer
output, the collected `next_hidden` list, and the updated units. -/
def QRNN.forwardAux (act : Activations) (training : Bool) (p : ℚ)
    (zm : ℕ → (ℕ → ℕ → ℕ → ℚ) × (ℕ → ℕ → ℕ → ℚ)) (dm : ℕ → ℕ → ℕ → ℕ → ℚ)
    (hidden : Option Tensor3) (L : ℕ) :
    List StackLayer → ℕ → Tensor3 → Tensor3 × List Tensor3 × List StackLayer
  | [], _, x => (x, [], [])
  | u :: us, i, x =>
    let r := u.fwd act training (zm i) x (hidden.map (fun h => sliceLayer h i))
    let x2 := if p ≠ 0 ∧ i < L - 1 then dropoutFn p training (dm i) r.1 else r.1
    let rest := QRNN.forwardAux act training p zm dm hidden L us (i + 1) x2
    (rest.1, r.2.1 :: rest.2.1, r.2.2 :: rest.2.2)

/-- Line 222: `torch.cat(next_hidden, 0).view(self.num_layers,
*next_hidden[0].size()[-2:])` (an empty stack would fail on
`next_hidden[0]`, modelled by the `None` tensor). -/
def QRNN.stackHidden (numl : ℕ) : List Tensor3 → Tensor3
  | [] => noneTensor
  | h0 :: rest => viewAs numl h0.b h0.d (catList (h0 :: rest))

/-- Lines 212-224: `QRNN.forward`: thread the input through the layers,
collect each unit's final hidden, and return the last output together with
the stacked hidden and the updated stack. -/
def QRNN.forward (q : QRNN) (act : Activations) (training : Bool)
    (zm : ℕ → (ℕ → ℕ → ℕ → ℚ) × (ℕ → ℕ → ℕ → ℚ)) (dm : ℕ → ℕ → ℕ → ℕ → ℚ)
    (input : Tensor3) (hidden : Option Tensor3) : Tensor3 × Tensor3 × QRNN :=
  let r := QRNN.forwardAux act training q.dropout zm dm hidden q.layers.length
    q.layers 0 input
  (r.1, QRNN.stackHidden q.num_layers r.2.1, { q with layers := r.2.2 })

/-! ## The shape-extraction entry of QRNNLayer.forward (lines 53-63) -/

/-- The runtime value handed to `QRNNLayer.forward`: a well-formed 3-d
tensor, a plain 2-d tensor, or a `PackedSequence`-like 4-tuple whose data
tensor is 2-d (`(total_steps, features)`). -/
inductive QRNNInput
  | tensor3 (x : Tensor3)
  | tensor2 (x : Tensor2)
  | packed (dataT : Tensor2) (batch_sizes : List ℕ) (sorted_indices unsorted_indices : List ℕ)

/-- Lines 53-63: `try: seq_len, batch_size, _ = X.size() except: ...`.  A
3-d tensor unpacks directly.  A 2-d tensor makes the `try` fail and the
fallback unpack `X, batch_sizes, sorted_indices, unsorted_indices = input`
fail in turn (a generic ValueError, either from unpacking the rows or from
the subsequent 2-into-1 unpack of `X.size()`).  A `PackedSequence`-like
4-tuple is silently accepted: `seq_len, batch_size = X.size()` reads the
packed 2-d data tensor, so `seq_len` becomes the total packed step count and
`batch_size` the feature width (after `batch_sizes[0]` is read, which needs
a nonempty list, and `print(X.size())` emits debug output). -/
def extractDims : QRNNInput → Except String (ℕ × ℕ)
  | .tensor3 x => .ok (x.n, x.b)
  | .tensor2 _ => .error "ValueError: values cannot be unpacked as a packed sequence"
  | .packed x bs _ _ =>
    match bs with
    | [] => .error "IndexError: index 0 is out of bounds"
    | _ :: _ => .ok (x.b, x.d)

/-! ## Concrete fixtures for witnesses -/

/-- A concrete stand-in for the external activation pair (the claims hold
for every activation, so any computable pair will do as a witness). -/
def testAct : Activations := ⟨fun q => q / 2, fun q => q / 3⟩

/-- A concrete externally-initialized weight matrix. -/
def testW : ℕ → ℕ → ℚ := fun j i => (j + 1 : ℚ) / (i + 2)

/-- A concrete externally-initialized bias. -/
def testB : ℕ → ℚ := fun j => (j : ℚ) - 1

/-- A concrete `(2, 1, 1)` input sequence. -/
def testX : Tensor3 := ⟨2, 1, 1, fun t bb k => (t : ℚ) + bb + k + 1⟩

/-- A concrete sampled 0/1 mask. -/
def testMask : ℕ → ℕ → ℕ → ℚ := fun t bb k => if (t + bb + k) % 2 = 0 then 1 else 0

/-- A concrete layer: `QRNNLayer(1, 1, save_prev_x=True, zoneout=1/4,
window=2, output_gate=True, use_cuda=True)`. -/
def testLayer : QRNNLayer := mkQRNNLayer 1 (some 1) true (1/4) 2 true true testW testB

/-- A concrete scalar channel for the gradient witnesses. -/
def tF : ℕ → ℚ := fun t => (t : ℚ) + 1

/-- A concrete candidate channel. -/
def tZ : ℕ → ℚ := fun t => (t : ℚ) - 2

/-- A concrete upstream gradient channel. -/
def tG : ℕ → ℚ := fun t => 2 * (t : ℚ) + 1

/-- A concrete per-layer weight generator for default stack construction. -/
def testWgen : ℕ → (ℕ → ℕ → ℚ) × (ℕ → ℚ) × (ℕ → ℕ → ℚ) × (ℕ → ℚ) :=
  fun _ => (testW, testB, testW, testB)

/-- The stack `QRNN(1, 1, num_layers=1, bidirectional=True, save_prev_x=True,
window=2)`. -/
def testBiStack : Except String QRNN :=
  mkQRNN 1 1 1 true false 0 true none true 0 2 true true testWgen

/-- A window-2 layer carrying a stale cache from a previous sequence. -/
def testCachedLayer : QRNNLayer := { testLayer with prevX := some (lastSlice testX) }

/-- The input handed to the next stack layer: the current unit's output,
with inter-layer dropout applied when `dropout != 0 and i < len(layers) -
1` (line 219). -/
def QRNN.stepInput (act : Activations) (tr : Bool) (p : ℚ)
    (zm : ℕ → (ℕ → ℕ → ℕ → ℚ) × (ℕ → ℕ → ℕ → ℚ)) (dm : ℕ → ℕ → ℕ → ℕ → ℚ)
    (hidden : Option Tensor3) (L : ℕ) (u : StackLayer) (i : ℕ) (x : Tensor3) : Tensor3 :=
  let r := u.fwd act tr (zm i) x (hidden.map (fun h => sliceLayer h i))
  if p ≠ 0 ∧ i < L - 1 then dropoutFn p tr (dm i) r.1 else r.1

/-- Concrete per-layer zoneout mask pairs for the stack witness. -/
def testZm : ℕ → (ℕ → ℕ → ℕ → ℚ) × (ℕ → ℕ → ℕ → ℚ) := fun _ => (testMask, testMask)

/-- Concrete per-gap dropout masks for the stack witness. -/
def testDm : ℕ → ℕ → ℕ → ℕ → ℚ := fun _ => testMask

/-- A concrete two-unit unidirectional stack. -/
def testStack : QRNN :=
  { layers := [.uni testLayer, .uni testLayer]
    input_size := 1
    hidden_size := 1
    num_layers := 2
    bias := true
    batch_first := false
    dropout := 0
    bidirectional := false }

/-! ## Theorems -/

theorem seqScan_eq_accelScan (f z : ℕ → ℚ) (c0 : ℚ) (t : ℕ) :
    seqScan f z c0 t = accelScan f z c0 t := by
  induction t with
  | zero =>
      simp [seqScan, accelScan, forgetMultCell]
  | succ t ih =>
      have hsum : ∑ s in Finset.range (t + 2), f s * z s * ∏ u in Finset.Ioc s (t + 1), (1 - f u)
          = (1 - f (t + 1)) *
              (∑ s in Finset.range (t + 1), f s * z s * ∏ u in Finset.Ioc s t, (1 - f u))
            + f (t + 1) * z (t + 1) := by
        rw [Finset.sum_range_succ]
        have h1 : ∀ s ∈ Finset.range (t + 1),
            f s * z s * ∏ u in Finset.Ioc s (t + 1), (1 - f u)
              = (1 - f (t + 1)) * (f s * z s * ∏ u in Finset.Ioc s t, (1 - f u)) := by
          intro s hs
          rw [Finset.prod_Ioc_succ_top (Nat.lt_succ_iff.mp (Finset.mem_range.mp hs))]
          ring
        rw [Finset.sum_congr rfl h1, ← Finset.mul_sum, Finset.Ioc_self, Finset.prod_empty]
        ring
      have hprod : ∏ u in Finset.range (t + 2), (1 - f u)
          = (1 - f (t + 1)) * ∏ u in Finset.range (t + 1), (1 - f u) := by
        rw [Finset.prod_range_succ]; ring
      simp only [seqScan, accelScan, forgetMultCell] at ih ⊢
      rw [hsum, hprod, ih]
      ring

theorem ForgetMult.run_data (F Z : Tensor3) (hidden : Option Tensor2) (uc : Bool)
    (t bb k : ℕ) :
    (ForgetMult.run F Z hidden uc).data t bb k =
      seqScan (fun s => F.data s bb k) (fun s => Z.data s bb k)
        (match hidden with | some h => h.data bb k | none => 0) t := by
  cases uc <;> cases hidden <;>
    simp [ForgetMult.run, seqScan_eq_accelScan]

theorem seqDeltaAux_eq_sum (f g : ℕ → ℚ) (m t : ℕ) :
    seqDeltaAux f g m t
      = ∑ s in Finset.Icc t (t + m), g s * ∏ u in Finset.Ioc t s, (1 - f u) := by
  induction m generalizing t with
  | zero =>
      simp [seqDeltaAux]
  | succ m ih =>
      rw [seqDeltaAux, ih (t + 1)]
      rw [Finset.Icc_eq_cons_Ioc (by omega : t ≤ t + (m + 1)), Finset.sum_cons]
      have hIoc : Finset.Ioc t (t + (m + 1)) = Finset.Icc (t + 1) (t + 1 + m) := by
        rw [← Nat.Icc_succ_left]
        congr 1
        omega
      have hterm : ∀ s ∈ Finset.Icc (t + 1) (t + 1 + m),
          g s * ∏ u in Finset.Ioc t s, (1 - f u)
            = (1 - f (t + 1)) * (g s * ∏ u in Finset.Ioc (t + 1) s, (1 - f u)) := by
        intro s hs
        have hs1 : t + 1 ≤ s := (Finset.mem_Icc.mp hs).1
        have : Finset.Ioc t s = Finset.Icc (t + 1) s := (Nat.Icc_succ_left t s).symm
        rw [this, Finset.Icc_eq_cons_Ioc hs1, Finset.prod_cons]
        ring
      rw [hIoc, Finset.sum_congr rfl hterm, ← Finset.mul_sum]
      simp [Finset.Ioc_self]

theorem seqDelta_eq_accelDelta (f g : ℕ → ℚ) (n t : ℕ) (ht : t ≤ n - 1) :
    seqDelta f g n t = accelDelta f g n t := by
  rw [seqDelta, accelDelta, seqDeltaAux_eq_sum]
  have h2 : t + (n - 1 - t) = n - 1 := by omega
  rw [h2]

theorem gradZ_strategies_eq (f g : ℕ → ℚ) (n t : ℕ) (ht : t ≤ n - 1) :
    seqGradZ f g n t = accelGradZ f g n t := by
  rw [seqGradZ, accelGradZ, seqDelta_eq_accelDelta f g n t ht, accelDelta, Finset.mul_sum]
  refine Finset.sum_congr rfl fun s _ => by ring

theorem gradC0_strategies_eq (f g : ℕ → ℚ) (n : ℕ) (hn : 1 ≤ n) :
    seqGradC0 f g n = accelGradC0 f g n := by
  rw [seqGradC0, seqDelta_eq_accelDelta f g n 0 (by omega), accelDelta, accelGradC0,
    Finset.mul_sum]
  have hIcc : Finset.Icc 0 (n - 1) = Finset.range n := by
    ext s
    simp [Finset.mem_Icc, Finset.mem_range]
    omega
  rw [hIcc]
  refine Finset.sum_congr rfl fun s _ => ?_
  have hins : Finset.range (s + 1) = Finset.cons 0 (Finset.Ioc 0 s) (by simp) := by
    ext u
    simp [Finset.mem_range, Finset.mem_Ioc]
    omega
  rw [hins, Finset.prod_cons]
  ring

theorem gradF_strategies_eq (f z g : ℕ → ℚ) (c0 : ℚ) (n t : ℕ) (ht : t ≤ n - 1) :
    seqGradF f z g c0 n t = accelGradF f z g c0 n t := by
  rw [seqGradF, seqDelta_eq_accelDelta f g n t ht, accelDelta, accelGradF, Finset.mul_sum]
  refine Finset.sum_congr rfl fun s hs => ?_
  have hts : t ≤ s := (Finset.mem_Icc.mp hs).1
  -- Reduce to the per-timestep identity between the expanded derivative of
  -- the closed form and the factored form `(z t - C[t-1]) * Π`.
  have key : z t * ∏ u in Finset.Ioc t s, (1 - f u)
      - (∑ r in Finset.range t, f r * z r * ∏ u in (Finset.Ioc r s).erase t, (1 - f u))
      - c0 * ∏ u in (Finset.range (s + 1)).erase t, (1 - f u)
      = (z t - (if t = 0 then c0 else seqScan f z c0 (t - 1)))
          * ∏ u in Finset.Ioc t s, (1 - f u) := by
    rcases Nat.eq_zero_or_pos t with h0 | hpos
    · subst h0
      have h1 : (Finset.range (s + 1)).erase 0 = Finset.Ioc 0 s := by
        ext u
        simp [Finset.mem_range, Finset.mem_Ioc, Nat.pos_iff_ne_zero]
        omega
      simp [h1]
      ring
    · have hne : t ≠ 0 := by omega
      have hscan : seqScan f z c0 (t - 1) = accelScan f z c0 (t - 1) :=
        seqScan_eq_accelScan f z c0 (t - 1)
      have ht1 : t - 1 + 1 = t := by omega
      -- split each erased product at t
      have hsplit : ∀ r ∈ Finset.range t,
          f r * z r * ∏ u in (Finset.Ioc r s).erase t, (1 - f u)
            = f r * z r * ((∏ u in Finset.Ioc r (t - 1), (1 - f u))
                * ∏ u in Finset.Ioc t s, (1 - f u)) := by
        intro r hr
        have hrt : r < t := Finset.mem_range.mp hr
        congr 1
        rw [← Finset.prod_union]
        · congr 1
          ext u
          simp [Finset.mem_erase, Finset.mem_Ioc, Finset.mem_union]
          omega
        · rw [Finset.disjoint_left]
          intro u hu1 hu2
          have h1 := Finset.mem_Ioc.mp hu1
          have h2 := Finset.mem_Ioc.mp hu2
          omega
      have hsplit0 : ∏ u in (Finset.range (s + 1)).erase t, (1 - f u)
          = (∏ u in Finset.range t, (1 - f u)) * ∏ u in Finset.Ioc t s, (1 - f u) := by
        rw [← Finset.prod_union]
        · congr 1
          ext u
          simp [Finset.mem_erase, Finset.mem_range, Finset.mem_Ioc, Finset.mem_union]
          omega
        · rw [Finset.disjoint_left]
          intro u hu1 hu2
          have h1 := Finset.mem_range.mp hu1
          have h2 := Finset.mem_Ioc.mp hu2
          omega
      have hsum2 : ∑ r in Finset.range t,
          f r * z r * ((∏ u in Finset.Ioc r (t - 1), (1 - f u))
            * ∏ u in Finset.Ioc t s, (1 - f u))
          = (∑ r in Finset.range t, f r * z r * ∏ u in Finset.Ioc r (t - 1), (1 - f u))
            * ∏ u in Finset.Ioc t s, (1 - f u) := by
        rw [Finset.sum_mul]
        exact Finset.sum_congr rfl fun r _ => by ring
      rw [Finset.sum_congr rfl hsplit, hsum2, hsplit0, if_neg hne, hscan, accelScan, ht1]
      ring
  rw [key]
  ring

/-! ## Shape lemmas -/

theorem applyZoneout_n (p : ℚ) (tr : Bool) (m : ℕ → ℕ → ℕ → ℚ) (F : Tensor3) :
    (applyZoneout p tr m F).n = F.n := by
  unfold applyZoneout
  split
  · rfl
  · cases tr <;> rfl

theorem applyZoneout_b (p : ℚ) (tr : Bool) (m : ℕ → ℕ → ℕ → ℚ) (F : Tensor3) :
    (applyZoneout p tr m F).b = F.b := by
  unfold applyZoneout
  split
  · rfl
  · cases tr <;> rfl

theorem applyZoneout_d (p : ℚ) (tr : Bool) (m : ℕ → ℕ → ℕ → ℚ) (F : Tensor3) :
    (applyZoneout p tr m F).d = F.d := by
  unfold applyZoneout
  split
  · rfl
  · cases tr <;> rfl

theorem QRNNLayer.gateF_n (l : QRNNLayer) (act : Activations) (tr : Bool)
    (m : ℕ → ℕ → ℕ → ℚ) (X : Tensor3) : (l.gateF act tr m X).n = X.n := by
  rw [QRNNLayer.gateF, applyZoneout_n]; rfl

theorem QRNNLayer.gateF_b (l : QRNNLayer) (act : Activations) (tr : Bool)
    (m : ℕ → ℕ → ℕ → ℚ) (X : Tensor3) : (l.gateF act tr m X).b = X.b := by
  rw [QRNNLayer.gateF, applyZoneout_b]; rfl

theorem QRNNLayer.gateF_d (l : QRNNLayer) (act : Activations) (tr : Bool)
    (m : ℕ → ℕ → ℕ → ℚ) (X : Tensor3) : (l.gateF act tr m X).d = l.hidden_size := by
  rw [QRNNLayer.gateF, applyZoneout_d]
  show ((if l.output_gate then 3 else 2) * l.hidden_size) / (if l.output_gate then 3 else 2)
    = l.hidden_size
  cases l.output_gate <;> simp

theorem QRNNLayer.scanC_n (l : QRNNLayer) (act : Activations) (tr : Bool)
    (m : ℕ → ℕ → ℕ → ℚ) (X : Tensor3) (h : Option Tensor2) :
    (l.scanC act tr m X h).n = X.n := by
  rw [QRNNLayer.scanC]
  cases l.use_cuda <;> cases h <;>
    simp [ForgetMult.run, QRNNLayer.gateF_n]

theorem QRNNLayer.scanC_b (l : QRNNLayer) (act : Activations) (tr : Bool)
    (m : ℕ → ℕ → ℕ → ℚ) (X : Tensor3) (h : Option Tensor2) :
    (l.scanC act tr m X h).b = X.b := by
  rw [QRNNLayer.scanC]
  cases l.use_cuda <;> cases h <;>
    simp [ForgetMult.run, QRNNLayer.gateF_b]

theorem QRNNLayer.scanC_d (l : QRNNLayer) (act : Activations) (tr : Bool)
    (m : ℕ → ℕ → ℕ → ℚ) (X : Tensor3) (h : Option Tensor2) :
    (l.scanC act tr m X h).d = l.hidden_size := by
  rw [QRNNLayer.scanC]
  cases l.use_cuda <;> cases h <;>
    simp [ForgetMult.run, QRNNLayer.gateF_d]

theorem QRNNLayer.scanC_data (l : QRNNLayer) (act : Activations) (tr : Bool)
    (m : ℕ → ℕ → ℕ → ℚ) (X : Tensor3) (h : Option Tensor2) (t bb k : ℕ) :
    (l.scanC act tr m X h).data t bb k =
      seqScan (fun s => (l.gateF act tr m X).data s bb k)
        (fun s => (l.gateZ act X).data s bb k)
        (match h with | some h0 => h0.data bb k | none => 0) t :=
  ForgetMult.run_data _ _ _ _ _ _ _

theorem QRNNLayer.forward_out_n (l : QRNNLayer) (act : Activations) (tr : Bool)
    (m : ℕ → ℕ → ℕ → ℚ) (X : Tensor3) (h : Option Tensor2) :
    (l.forward act tr m X h).1.n = X.n := by
  rw [QRNNLayer.forward]
  cases hog : l.output_gate
  · simp [hog, QRNNLayer.scanC_n]
  · simp [hog, zipT, QRNNLayer.chunkO, chunkDim2, QRNNLayer.viewedY, viewAs]

theorem QRNNLayer.forward_out_b (l : QRNNLayer) (act : Activations) (tr : Bool)
    (m : ℕ → ℕ → ℕ → ℚ) (X : Tensor3) (h : Option Tensor2) :
    (l.forward act tr m X h).1.b = X.b := by
  rw [QRNNLayer.forward]
  cases hog : l.output_gate
  · simp [hog, QRNNLayer.scanC_b]
  · simp [hog, zipT, QRNNLayer.chunkO, chunkDim2, QRNNLayer.viewedY, viewAs]

theorem QRNNLayer.forward_out_d (l : QRNNLayer) (act : Activations) (tr : Bool)
    (m : ℕ → ℕ → ℕ → ℚ) (X : Tensor3) (h : Option Tensor2) :
    (l.forward act tr m X h).1.d = l.hidden_size := by
  rw [QRNNLayer.forward]
  cases hog : l.output_gate
  · simp [hog, QRNNLayer.scanC_d]
  · show ((if l.output_gate then 3 else 2) * l.hidden_size) / 3 = l.hidden_size
    rw [hog]
    simp

theorem QRNNLayer.forward_hn_n (l : QRNNLayer) (act : Activations) (tr : Bool)
    (m : ℕ → ℕ → ℕ → ℚ) (X : Tensor3) (h : Option Tensor2) :
    (l.forward act tr m X h).2.1.n = min 1 X.n := by
  rw [QRNNLayer.forward]
  simp [lastSlice, QRNNLayer.scanC_n]

theorem QRNNLayer.forward_hn_b (l : QRNNLayer) (act : Activations) (tr : Bool)
    (m : ℕ → ℕ → ℕ → ℚ) (X : Tensor3) (h : Option Tensor2) :
    (l.forward act tr m X h).2.1.b = X.b := by
  rw [QRNNLayer.forward]
  simp [lastSlice, QRNNLayer.scanC_b]

theorem QRNNLayer.forward_hn_d (l : QRNNLayer) (act : Activations) (tr : Bool)
    (m : ℕ → ℕ → ℕ → ℚ) (X : Tensor3) (h : Option Tensor2) :
    (l.forward act tr m X h).2.1.d = l.hidden_size := by
  rw [QRNNLayer.forward]
  simp [lastSlice, QRNNLayer.scanC_d]

/-- Claim C1: for every gate tensor `F` and candidate tensor `Z` produced in
`QRNNLayer.forward` and every optional initial state, the scan invoked at
line 113 computes `C[t] = F[t] * Z[t] + (1 - F[t]) * C[t-1]` elementwise,
with `C[-1]` the caller-supplied hidden state (an all-zero array when none
is supplied), and the final hidden state returned to callers is
`C[T-1]` (as the single-timestep slice `C[-1:, :, :]`). -/
theorem claim1_scan_recurrence (l : QRNNLayer) (act : Activations) (training : Bool)
    (mask : ℕ → ℕ → ℕ → ℚ) (X : Tensor3) (hidden : Option Tensor2) :
    (∀ bb k, (l.scanC act training mask X hidden).data 0 bb k
        = (l.gateF act training mask X).data 0 bb k * (l.gateZ act X).data 0 bb k
          + (1 - (l.gateF act training mask X).data 0 bb k)
            * (match hidden with | some h => h.data bb k | none => 0))
    ∧ (∀ t bb k, (l.scanC act training mask X hidden).data (t + 1) bb k
        = (l.gateF act training mask X).data (t + 1) bb k
            * (l.gateZ act X).data (t + 1) bb k
          + (1 - (l.gateF act training mask X).data (t + 1) bb k)
            * (l.scanC act training mask X hidden).data t bb k)
    ∧ (1 ≤ X.n → ∀ bb k, (l.forward act training mask X hidden).2.1.data 0 bb k
        = (l.scanC act training mask X hidden).data (X.n - 1) bb k)
    ∧ (l.forward act training mask X hidden).2.1.n = min 1 X.n := by
  refine ⟨?_, ?_, ?_, ?_⟩
  · intro bb k
    rw [QRNNLayer.scanC_data]
    cases hidden <;> simp [seqScan, forgetMultCell]
  · intro t bb k
    rw [QRNNLayer.scanC_data, QRNNLayer.scanC_data]
    cases hidden <;> simp [seqScan, forgetMultCell]
  · intro hX bb k
    rw [QRNNLayer.forward]
    show (lastSlice (l.scanC act training mask X hidden)).data 0 bb k = _
    rw [lastSlice, QRNNLayer.scanC_n]
  · exact QRNNLayer.forward_hn_n l act training mask X hidden

/-- Witness for C1 at a concrete layer, input and initial state: the `t = 1`
recurrence step and the returned final hidden state evaluated concretely. -/
theorem claim1_scan_recurrence_witness :
    (testLayer.forward testAct true testMask testX (some ⟨1, 1, fun _ _ => 1⟩)).2.1.data 0 0 0
      = (testLayer.scanC testAct true testMask testX (some ⟨1, 1, fun _ _ => 1⟩)).data
          (testX.n - 1) 0 0 :=
  (claim1_scan_recurrence testLayer testAct true testMask testX
    (some ⟨1, 1, fun _ _ => 1⟩)).2.2.1 (by decide) 0 0

/-- Claim C4: the zoneout stage on the sigmoid-activated forget gate: in
training mode it multiplies `F` elementwise by the sampled Bernoulli
keep-mask; in inference mode it deterministically scales `F` by `1 - p`
with no sampling; and with `p = 0` the stage is the identity in both modes
(the `if self.zoneout:` truthiness test skips it).  The last conjunct ties
the stage to its place in the layer pipeline (applied to
`sigmoid(chunk F)`). -/
theorem claim4_zoneout (p : ℚ) (training : Bool) (mask : ℕ → ℕ → ℕ → ℚ) (F : Tensor3)
    (l : QRNNLayer) (act : Activations) (X : Tensor3) :
    (p ≠ 0 → ∀ t bb k, (applyZoneout p true mask F).data t bb k
        = F.data t bb k * mask t bb k)
    ∧ (p ≠ 0 → ∀ t bb k, (applyZoneout p false mask F).data t bb k
        = F.data t bb k * (1 - p))
    ∧ (p = 0 → applyZoneout p training mask F = F)
    ∧ l.gateF act training mask X
        = applyZoneout l.zoneout training mask (mapT act.sigmoid (l.chunkF X)) := by
  refine ⟨?_, ?_, ?_, rfl⟩
  · intro hp t bb k
    unfold applyZoneout
    rw [if_neg hp]
  · intro hp t bb k
    unfold applyZoneout
    rw [if_neg hp]
    rfl
  · intro hp
    unfold applyZoneout
    rw [if_pos hp]

/-- Witness for C4 at concrete probability, masks and gate tensors: both the
training-mode mask multiplication and the inference-mode scaling, and the
`p = 0` identity. -/
theorem claim4_zoneout_witness :
    ((applyZoneout 2 true testMask testX).data 1 0 0 = testX.data 1 0 0 * testMask 1 0 0)
    ∧ ((applyZoneout 2 false testMask testX).data 1 0 0 = testX.data 1 0 0 * (1 - 2))
    ∧ applyZoneout 0 true testMask testX = testX :=
  ⟨(claim4_zoneout 2 true testMask testX testLayer testAct testX).1 (by decide) 1 0 0,
   (claim4_zoneout 2 true testMask testX testLayer testAct testX).2.1 (by decide) 1 0 0,
   (claim4_zoneout 0 true testMask testX testLayer testAct testX).2.2.1 rfl⟩

/-- Claim C5: with output gating enabled the per-timestep output is
`H[t] = sigmoid(O[t]) * C[t]`, otherwise `H = C`; and in both cases the
returned final hidden state is the pre-output-gate scan state `C[T-1]`
(reshaped to the single-timestep slice `C[-1:, :, :]`), never the gated
output `H`. -/
theorem claim5_output_gate (l : QRNNLayer) (act : Activations) (training : Bool)
    (mask : ℕ → ℕ → ℕ → ℚ) (X : Tensor3) (hidden : Option Tensor2) :
    (l.output_gate = true → ∀ t bb k,
        (l.forward act training mask X hidden).1.data t bb k
          = act.sigmoid ((l.chunkO X).data t bb k)
            * (l.scanC act training mask X hidden).data t bb k)
    ∧ (l.output_gate = false →
        (l.forward act training mask X hidden).1 = l.scanC act training mask X hidden)
    ∧ (l.forward act training mask X hidden).2.1
        = lastSlice (l.scanC act training mask X hidden) := by
  refine ⟨?_, ?_, rfl⟩
  · intro hog t bb k
    rw [QRNNLayer.forward]
    simp only [hog, if_true]
    rfl
  · intro hog
    rw [QRNNLayer.forward]
    simp only [hog, Bool.false_eq_true, if_false]

/-- Witness for C5 at a concrete gated layer and input. -/
theorem claim5_output_gate_witness :
    (testLayer.forward testAct false testMask testX none).1.data 1 0 0
      = testAct.sigmoid ((testLayer.chunkO testX).data 1 0 0)
        * (testLayer.scanC testAct false testMask testX none).data 1 0 0 :=
  (claim5_output_gate testLayer testAct false testMask testX none).1 rfl 1 0 0

theorem Tensor3.eq_of (x y : Tensor3) (hn : x.n = y.n) (hb : x.b = y.b) (hd : x.d = y.d)
    (hdata : x.data = y.data) : x = y := by
  cases x; cases y
  cases hn; cases hb; cases hd; cases hdata
  rfl

theorem ForgetMult.run_strategies_eq (F Z : Tensor3) (h : Option Tensor2) :
    ForgetMult.run F Z h true = ForgetMult.run F Z h false := by
  apply Tensor3.eq_of
  · cases h <;> rfl
  · cases h <;> rfl
  · cases h <;> rfl
  · cases h <;> (funext t bb k; exact (seqScan_eq_accelScan _ _ _ t).symm)

/-- Claim C2: for identical `F`, `Z` and initial state, the two scan
strategies selectable via `use_cuda` produce equal `C` tensors (hence an
aggregated absolute difference of `0 ≤ 1e-5`), and reverse-mode
differentiation of the two strategies produces equal gradients with respect
to `F`, `Z` and `C₋₁` on every channel (for every upstream gradient `g`,
every in-range timestep `t` and every positive length `n`). -/
theorem claim2_strategy_equivalence :
    (∀ (F Z : Tensor3) (h : Option Tensor2),
        ForgetMult.run F Z h true = ForgetMult.run F Z h false)
    ∧ (∀ (F Z : Tensor3) (h : Option Tensor2),
        aggAbsDiff (ForgetMult.run F Z h true) (ForgetMult.run F Z h false) ≤ 1 / 100000)
    ∧ (∀ (f g : ℕ → ℚ) (n t : ℕ), t ≤ n - 1 → seqGradZ f g n t = accelGradZ f g n t)
    ∧ (∀ (f z g : ℕ → ℚ) (c0 : ℚ) (n t : ℕ), t ≤ n - 1 →
        seqGradF f z g c0 n t = accelGradF f z g c0 n t)
    ∧ (∀ (f g : ℕ → ℚ) (n : ℕ), 1 ≤ n → seqGradC0 f g n = accelGradC0 f g n) := by
  refine ⟨ForgetMult.run_strategies_eq, ?_, gradZ_strategies_eq, gradF_strategies_eq,
    gradC0_strategies_eq⟩
  intro F Z h
  rw [ForgetMult.run_strategies_eq]
  have hz : aggAbsDiff (ForgetMult.run F Z h false) (ForgetMult.run F Z h false) = 0 := by
    simp [aggAbsDiff]
  rw [hz]
  norm_num

/-- Witness for C2 at length 3, timestep 1, and a concrete tensor triple. -/
theorem claim2_strategy_equivalence_witness :
    (ForgetMult.run testX testX none true = ForgetMult.run testX testX none false)
    ∧ (aggAbsDiff (ForgetMult.run testX testX none true)
        (ForgetMult.run testX testX none false) ≤ 1 / 100000)
    ∧ (seqGradZ tF tG 3 1 = accelGradZ tF tG 3 1)
    ∧ (seqGradF tF tZ tG 5 3 1 = accelGradF tF tZ tG 5 3 1)
    ∧ (seqGradC0 tF tG 3 = accelGradC0 tF tG 3) :=
  ⟨claim2_strategy_equivalence.1 testX testX none,
   claim2_strategy_equivalence.2.1 testX testX none,
   claim2_strategy_equivalence.2.2.1 tF tG 3 1 (by decide),
   claim2_strategy_equivalence.2.2.2.1 tF tZ tG 5 3 1 (by decide),
   claim2_strategy_equivalence.2.2.2.2 tF tG 3 (by decide)⟩

/-- Claim C3: the windowed feature builder of `QRNNLayer.forward` (lines
69-81) returns `X` unchanged when `window = 1`; when `window = 2` it
returns, at each `t`, the feature-axis concatenation of `X[t]` with
`X[t-1]`, where the `t = 0` boundary value is the cached `prevX` when
present and a zero array matching `X[0]` otherwise; and when `T = 1` no
empty slice of `X` is taken and the shifted tensor still has length 1
(length `T` in general).  `hp` records the well-formedness of any cached
`prevX` (a single timestep of `X`'s feature width, which is what line 123
stores). -/
theorem claim3_windowed_source (l : QRNNLayer) (X : Tensor3)
    (hp : ∀ p0, l.prevX = some p0 → p0.n = 1 ∧ p0.d = X.d) (hX : 1 ≤ X.n) :
    (l.window = 1 → l.source X = X)
    ∧ (l.window = 2 →
        (l.source X).n = X.n
        ∧ (l.source X).d = X.d + X.d
        ∧ (l.shiftedXm1 X).n = X.n
        ∧ (∀ t bb k, k < X.d → (l.source X).data t bb k = X.data t bb k)
        ∧ (∀ t bb k, 1 ≤ t → t < X.n → k < X.d →
            (l.source X).data t bb (X.d + k) = X.data (t - 1) bb k)
        ∧ (∀ bb k, (l.source X).data 0 bb (X.d + k)
            = match l.prevX with | some p0 => p0.data 0 bb k | none => 0)) := by
  constructor
  · intro h1
    rw [QRNNLayer.source, if_pos h1]
  · intro h2
    have hw1 : l.window ≠ 1 := by omega
    have hn1 : ∀ p0, l.prevX = some p0 → p0.n = 1 := fun p0 h => (hp p0 h).1
    have hsrc : l.source X = catDim2 X (l.shiftedXm1 X) := by
      rw [QRNNLayer.source, if_neg hw1, if_pos h2]
    have hheadn : (match l.prevX with
        | some p => p
        | none => mapT (fun v => v * 0) (takeFirst X)).n = 1 := by
      cases hpx : l.prevX with
      | some p0 => exact hn1 p0 hpx
      | none => simp [mapT, takeFirst]; omega
    have hshiftn : (l.shiftedXm1 X).n = X.n := by
      rw [QRNNLayer.shiftedXm1]
      split
      · rename_i hgt
        rw [catDim0]
        simp only []
        rw [hheadn]
        show 1 + (X.n - 1) = X.n
        omega
      · rename_i hle
        rw [hheadn]
        omega
    have hshiftd : (l.shiftedXm1 X).d = X.d := by
      rw [QRNNLayer.shiftedXm1]
      have hheadd : (match l.prevX with
          | some p => p
          | none => mapT (fun v => v * 0) (takeFirst X)).d = X.d := by
        cases hpx : l.prevX with
        | some p0 => exact (hp p0 hpx).2
        | none => rfl
      split
      · exact hheadd
      · exact hheadd
    have hshift0 : ∀ bb k, (l.shiftedXm1 X).data 0 bb k
        = match l.prevX with | some p0 => p0.data 0 bb k | none => 0 := by
      intro bb k
      rw [QRNNLayer.shiftedXm1]
      cases hpx : l.prevX with
      | some p0 =>
          have h1 : p0.n = 1 := hn1 p0 hpx
          split
          · show (catDim0 p0 (dropLastT X)).data 0 bb k = _
            rw [catDim0]
            simp only []
            rw [if_pos (by omega)]
          · rfl
      | none =>
          split
          · show (catDim0 (mapT (fun v => v * 0) (takeFirst X)) (dropLastT X)).data 0 bb k = _
            rw [catDim0]
            simp only []
            rw [if_pos (by simp [mapT, takeFirst]; omega)]
            simp [mapT, takeFirst]
          · simp [mapT, takeFirst]
    have hshiftt : ∀ t bb k, 1 ≤ t → t < X.n →
        (l.shiftedXm1 X).data t bb k = X.data (t - 1) bb k := by
      intro t bb k ht1 ht2
      rw [QRNNLayer.shiftedXm1]
      have hgt : 1 < X.n := by omega
      rw [if_pos hgt]
      cases hpx : l.prevX with
      | some p0 =>
          have h1 : p0.n = 1 := hn1 p0 hpx
          show (catDim0 p0 (dropLastT X)).data t bb k = _
          rw [catDim0]
          simp only []
          rw [h1]
          rw [if_neg (by omega)]
          rfl
      | none =>
          show (catDim0 (mapT (fun v => v * 0) (takeFirst X)) (dropLastT X)).data t bb k = _
          rw [catDim0]
          simp only []
          have hmn : (mapT (fun v => v * 0) (takeFirst X)).n = min 1 X.n := rfl
          rw [hmn]
          rw [if_neg (by omega)]
          show X.data (t - min 1 X.n) bb k = X.data (t - 1) bb k
          congr 1
          omega
    refine ⟨?_, ?_, hshiftn, ?_, ?_, ?_⟩
    · rw [hsrc]; rfl
    · rw [hsrc]
      show X.d + (l.shiftedXm1 X).d = X.d + X.d
      rw [hshiftd]
    · intro t bb k hk
      rw [hsrc, catDim2]
      simp only []
      rw [if_pos hk]
    · intro t bb k ht1 ht2 hk
      rw [hsrc, catDim2]
      simp only []
      rw [if_neg (by omega)]
      have : X.d + k - X.d = k := by omega
      rw [this, hshiftt t bb k ht1 ht2]
    · intro bb k
      rw [hsrc, catDim2]
      simp only []
      rw [if_neg (by omega)]
      have : X.d + k - X.d = k := by omega
      rw [this, hshift0 bb k]

/-- Witness for C3 at a concrete window-2 layer (empty cache) and the
length-2 input: the interior shift, the zero boundary, and the `T = 1`
degenerate case on the one-timestep slice. -/
theorem claim3_windowed_source_witness :
    ((testLayer.source testX).data 1 0 (testX.d + 0) = testX.data 0 0 0)
    ∧ ((testLayer.source testX).data 0 0 (testX.d + 0) = 0)
    ∧ (testLayer.shiftedXm1 (takeFirst testX)).n = (takeFirst testX).n := by
  have h2 : testLayer.window = 2 := rfl
  have hp : ∀ p0, testLayer.prevX = some p0 → p0.n = 1 ∧ p0.d = testX.d := by
    intro p0 h
    simp [testLayer, mkQRNNLayer] at h
  have hp1 : ∀ p0, testLayer.prevX = some p0 → p0.n = 1 ∧ p0.d = (takeFirst testX).d := by
    intro p0 h
    simp [testLayer, mkQRNNLayer] at h
  refine ⟨?_, ?_, ?_⟩
  · exact ((claim3_windowed_source testLayer testX hp (by decide)).2 h2).2.2.2.2.1 1 0 0
      (by decide) (by decide) (by decide)
  · exact ((claim3_windowed_source testLayer testX hp (by decide)).2 h2).2.2.2.2.2 0 0
  · exact ((claim3_windowed_source testLayer (takeFirst testX) hp1
      (by decide)).2 h2).2.2.1

/-- Claim C6 (the code contradicts it): `QRNN.reset` runs
`[layer.reset() for layer in self.layers]`, but the `BiDirQRNNLayer` class
defines no `reset` method, so on a stack containing a bidirectional unit the
call raises `AttributeError` instead of delegating (first conjunct, the
code evaluated at the failing input).  On all-unidirectional stacks the
delegation does work: resetting clears the cached `prevX`, after which the
window-2 first-timestep boundary value is zero rather than the stale cache
(remaining conjuncts). -/
theorem claim6_reset_on_bidirectional_stack :
    (testBiStack.bind QRNN.reset
      = .error "AttributeError: BiDirQRNNLayer object has no attribute reset")
    ∧ (QRNN.resetLayers [StackLayer.uni testCachedLayer]
        = .ok [StackLayer.uni testCachedLayer.reset])
    ∧ testCachedLayer.reset.prevX = none
    ∧ (∀ bb k, (testCachedLayer.reset.shiftedXm1 testX).data 0 bb k = 0)
    ∧ (∀ bb k, (testCachedLayer.shiftedXm1 testX).data 0 bb k = testX.data 1 bb k) := by
  refine ⟨rfl, rfl, rfl, ?_, ?_⟩
  · intro bb k
    show testX.data 0 bb k * 0 = 0
    exact mul_zero _
  · intro bb k
    rfl

/-- Claim C7 (the code contradicts it): the try/except entry of
`QRNNLayer.forward` does not fail on an input that is not a `(time, batch,
feature)` tensor: a `PackedSequence`-like 4-tuple is silently accepted, with
`seq_len` guessed as the total packed step count (6 here) and `batch_size`
as the feature width (5 here) — no shape-mismatch error is surfaced.  A
genuine 3-d tensor is read as `(seq_len, batch)` from its first two sizes
(second conjunct). -/
theorem claim7_shape_fallback_guesses :
    extractDims (.packed ⟨6, 5, fun _ _ => 0⟩ [5, 1] [] []) = .ok (6, 5)
    ∧ extractDims (.tensor3 ⟨2, 3, 4, fun _ _ _ => 0⟩) = .ok (2, 3) :=
  ⟨rfl, rfl⟩

/-- Claim C8: for every constructed bidirectional unit, every input `X` and
every optional initial hidden, `forward` runs the forward-direction
sub-layer on `X` as-is and the backward-direction sub-layer on `X` reversed
along time, re-reverses the backward output, passes the same caller-supplied
hidden to both sub-layers, and returns the feature-axis concatenations of
outputs and of final hiddens, both of doubled width `2 * hidden_size`. -/
theorem claim8_bidirectional_combiner (i : ℕ) (hs : Option ℕ) (sp : Bool) (zo : ℚ)
    (w : ℕ) (og uc : Bool) (wf : ℕ → ℕ → ℚ) (bf : ℕ → ℚ) (wb : ℕ → ℕ → ℚ)
    (bb2 : ℕ → ℚ) (act : Activations) (training : Bool)
    (mf mb : ℕ → ℕ → ℕ → ℚ) (X : Tensor3) (hidden : Option Tensor2) :
    let l := mkBiDirQRNNLayer i hs sp zo w og uc wf bf wb bb2
    let rf := l.forward_qrnn.forward act training mf X hidden
    let rb := l.backward_qrnn.forward act training mb (flipDim0 X) hidden
    let r := l.forward act training mf mb X hidden
    (r.1 = catDim2 rf.1 (flipDim0 rb.1))
    ∧ (r.2.1 = catDim2 rf.2.1 rb.2.1)
    ∧ (r.1.d = 2 * l.hidden_size)
    ∧ (r.2.1.d = 2 * l.hidden_size)
    ∧ (r.1.n = X.n)
    ∧ (r.2.1.n = min 1 X.n)
    ∧ (∀ t bb k, r.1.data t bb (l.hidden_size + k) = rb.1.data (X.n - 1 - t) bb k) := by
  intro l rf rb r
  have hfd : rf.1.d = l.hidden_size := QRNNLayer.forward_out_d _ _ _ _ _ _
  have hbd : rb.1.d = l.hidden_size := QRNNLayer.forward_out_d _ _ _ _ _ _
  have hfn : rf.1.n = X.n := QRNNLayer.forward_out_n _ _ _ _ _ _
  have hbn : rb.1.n = X.n := QRNNLayer.forward_out_n _ _ _ _ _ _
  refine ⟨rfl, rfl, ?_, ?_, ?_, ?_, ?_⟩
  · show (catDim2 rf.1 (flipDim0 rb.1)).d = 2 * l.hidden_size
    show rf.1.d + (flipDim0 rb.1).d = 2 * l.hidden_size
    show rf.1.d + rb.1.d = 2 * l.hidden_size
    rw [hfd, hbd]
    ring
  · show (catDim2 rf.2.1 rb.2.1).d = 2 * l.hidden_size
    show rf.2.1.d + rb.2.1.d = 2 * l.hidden_size
    rw [QRNNLayer.forward_hn_d, QRNNLayer.forward_hn_d]
    show l.hidden_size + l.hidden_size = 2 * l.hidden_size
    ring
  · show (catDim2 rf.1 (flipDim0 rb.1)).n = X.n
    show rf.1.n = X.n
    exact hfn
  · show (catDim2 rf.2.1 rb.2.1).n = min 1 X.n
    show rf.2.1.n = min 1 X.n
    exact QRNNLayer.forward_hn_n _ _ _ _ _ _
  · intro t bb k
    show (catDim2 rf.1 (flipDim0 rb.1)).data t bb (l.hidden_size + k) = _
    rw [catDim2]
    simp only []
    rw [if_neg (by rw [hfd]; omega)]
    rw [hfd]
    have hk : l.hidden_size + k - l.hidden_size = k := by omega
    rw [hk]
    show rb.1.data (rb.1.n - 1 - t) bb k = rb.1.data (X.n - 1 - t) bb k
    rw [hbn]

/-- Claim C10: a `hidden_size` argument of `0` (not only `None`) is falsy in
Python, so both `QRNNLayer` and `BiDirQRNNLayer` silently fall back to
`input_size` as the hidden dimension and the construction is not rejected
(the window-1 `init` succeeds). -/
theorem claim10_falsy_hidden_size (i : ℕ) (sp : Bool) (zo : ℚ) (og uc : Bool)
    (wq : ℕ → ℕ → ℚ) (bq : ℕ → ℚ) (wf : ℕ → ℕ → ℚ) (bf : ℕ → ℚ)
    (wb : ℕ → ℕ → ℚ) (bb2 : ℕ → ℚ) (w : ℕ) :
    ((mkQRNNLayer i (some 0) sp zo w og uc wq bq).hidden_size = i)
    ∧ ((mkQRNNLayer i none sp zo w og uc wq bq).hidden_size = i)
    ∧ ((mkBiDirQRNNLayer i (some 0) sp zo w og uc wf bf wb bb2).hidden_size = i)
    ∧ ((mkBiDirQRNNLayer i (some 0) sp zo w og uc wf bf wb bb2).forward_qrnn.hidden_size = i)
    ∧ ((mkBiDirQRNNLayer i (some 0) sp zo w og uc wf bf wb bb2).backward_qrnn.hidden_size = i)
    ∧ (QRNNLayer.init i (some 0) sp zo 1 og uc wq bq
        = .ok (mkQRNNLayer i (some 0) sp zo 1 og uc wq bq)) :=
  ⟨rfl, rfl, rfl, rfl, rfl, rfl⟩

/-! ## Stack shape and dropout lemmas -/

theorem StackLayer.fwd_out_n (u : StackLayer) (act : Activations) (tr : Bool)
    (ms : (ℕ → ℕ → ℕ → ℚ) × (ℕ → ℕ → ℕ → ℚ)) (x : Tensor3) (h : Option Tensor2) :
    (u.fwd act tr ms x h).1.n = x.n := by
  cases u with
  | uni l => exact QRNNLayer.forward_out_n l act tr ms.1 x h
  | bi l =>
      show (l.forward_qrnn.forward act tr ms.1 x h).1.n = x.n
      exact QRNNLayer.forward_out_n _ _ _ _ _ _

theorem StackLayer.fwd_out_b (u : StackLayer) (act : Activations) (tr : Bool)
    (ms : (ℕ → ℕ → ℕ → ℚ) × (ℕ → ℕ → ℕ → ℚ)) (x : Tensor3) (h : Option Tensor2) :
    (u.fwd act tr ms x h).1.b = x.b := by
  cases u with
  | uni l => exact QRNNLayer.forward_out_b l act tr ms.1 x h
  | bi l =>
      show (l.forward_qrnn.forward act tr ms.1 x h).1.b = x.b
      exact QRNNLayer.forward_out_b _ _ _ _ _ _

theorem StackLayer.fwd_out_d (u : StackLayer) (act : Activations) (tr : Bool)
    (ms : (ℕ → ℕ → ℕ → ℚ) × (ℕ → ℕ → ℕ → ℚ)) (x : Tensor3) (h : Option Tensor2) :
    (u.fwd act tr ms x h).1.d = u.outWidth := by
  cases u with
  | uni l => exact QRNNLayer.forward_out_d l act tr ms.1 x h
  | bi l =>
      show (l.forward_qrnn.forward act tr ms.1 x h).1.d
          + (l.backward_qrnn.forward act tr ms.2 (flipDim0 x) h).1.d
        = l.forward_qrnn.hidden_size + l.backward_qrnn.hidden_size
      rw [QRNNLayer.forward_out_d, QRNNLayer.forward_out_d]

theorem StackLayer.fwd_hn_n (u : StackLayer) (act : Activations) (tr : Bool)
    (ms : (ℕ → ℕ → ℕ → ℚ) × (ℕ → ℕ → ℕ → ℚ)) (x : Tensor3) (h : Option Tensor2) :
    (u.fwd act tr ms x h).2.1.n = min 1 x.n := by
  cases u with
  | uni l => exact QRNNLayer.forward_hn_n l act tr ms.1 x h
  | bi l =>
      show (l.forward_qrnn.forward act tr ms.1 x h).2.1.n = min 1 x.n
      exact QRNNLayer.forward_hn_n _ _ _ _ _ _

theorem StackLayer.fwd_hn_b (u : StackLayer) (act : Activations) (tr : Bool)
    (ms : (ℕ → ℕ → ℕ → ℚ) × (ℕ → ℕ → ℕ → ℚ)) (x : Tensor3) (h : Option Tensor2) :
    (u.fwd act tr ms x h).2.1.b = x.b := by
  cases u with
  | uni l => exact QRNNLayer.forward_hn_b l act tr ms.1 x h
  | bi l =>
      show (l.forward_qrnn.forward act tr ms.1 x h).2.1.b = x.b
      exact QRNNLayer.forward_hn_b _ _ _ _ _ _

theorem StackLayer.fwd_hn_d (u : StackLayer) (act : Activations) (tr : Bool)
    (ms : (ℕ → ℕ → ℕ → ℚ) × (ℕ → ℕ → ℕ → ℚ)) (x : Tensor3) (h : Option Tensor2) :
    (u.fwd act tr ms x h).2.1.d = u.outWidth := by
  cases u with
  | uni l => exact QRNNLayer.forward_hn_d l act tr ms.1 x h
  | bi l =>
      show (l.forward_qrnn.forward act tr ms.1 x h).2.1.d
          + (l.backward_qrnn.forward act tr ms.2 (flipDim0 x) h).2.1.d
        = l.forward_qrnn.hidden_size + l.backward_qrnn.hidden_size
      rw [QRNNLayer.forward_hn_d, QRNNLayer.forward_hn_d]

theorem QRNN.forwardAux_cons (act : Activations) (tr : Bool) (p : ℚ)
    (zm : ℕ → (ℕ → ℕ → ℕ → ℚ) × (ℕ → ℕ → ℕ → ℚ)) (dm : ℕ → ℕ → ℕ → ℕ → ℚ)
    (hidden : Option Tensor3) (L : ℕ) (u : StackLayer) (us : List StackLayer)
    (i : ℕ) (x : Tensor3) :
    QRNN.forwardAux act tr p zm dm hidden L (u :: us) i x
      = ((QRNN.forwardAux act tr p zm dm hidden L us (i + 1)
            (QRNN.stepInput act tr p zm dm hidden L u i x)).1,
         (u.fwd act tr (zm i) x (hidden.map (fun h => sliceLayer h i))).2.1
           :: (QRNN.forwardAux act tr p zm dm hidden L us (i + 1)
                (QRNN.stepInput act tr p zm dm hidden L u i x)).2.1,
         (u.fwd act tr (zm i) x (hidden.map (fun h => sliceLayer h i))).2.2
           :: (QRNN.forwardAux act tr p zm dm hidden L us (i + 1)
                (QRNN.stepInput act tr p zm dm hidden L u i x)).2.2) := rfl

theorem QRNN.stepInput_n (act : Activations) (tr : Bool) (p : ℚ)
    (zm : ℕ → (ℕ → ℕ → ℕ → ℚ) × (ℕ → ℕ → ℕ → ℚ)) (dm : ℕ → ℕ → ℕ → ℕ → ℚ)
    (hidden : Option Tensor3) (L : ℕ) (u : StackLayer) (i : ℕ) (x : Tensor3) :
    (QRNN.stepInput act tr p zm dm hidden L u i x).n = x.n := by
  unfold QRNN.stepInput
  split
  · cases tr
    · exact StackLayer.fwd_out_n _ _ _ _ _ _
    · show (u.fwd act true (zm i) x _).1.n = x.n
      exact StackLayer.fwd_out_n _ _ _ _ _ _
  · exact StackLayer.fwd_out_n _ _ _ _ _ _

theorem QRNN.stepInput_b (act : Activations) (tr : Bool) (p : ℚ)
    (zm : ℕ → (ℕ → ℕ → ℕ → ℚ) × (ℕ → ℕ → ℕ → ℚ)) (dm : ℕ → ℕ → ℕ → ℕ → ℚ)
    (hidden : Option Tensor3) (L : ℕ) (u : StackLayer) (i : ℕ) (x : Tensor3) :
    (QRNN.stepInput act tr p zm dm hidden L u i x).b = x.b := by
  unfold QRNN.stepInput
  split
  · cases tr
    · exact StackLayer.fwd_out_b _ _ _ _ _ _
    · show (u.fwd act true (zm i) x _).1.b = x.b
      exact StackLayer.fwd_out_b _ _ _ _ _ _
  · exact StackLayer.fwd_out_b _ _ _ _ _ _

theorem QRNN.stepInput_d (act : Activations) (tr : Bool) (p : ℚ)
    (zm : ℕ → (ℕ → ℕ → ℕ → ℚ) × (ℕ → ℕ → ℕ → ℚ)) (dm : ℕ → ℕ → ℕ → ℕ → ℚ)
    (hidden : Option Tensor3) (L : ℕ) (u : StackLayer) (i : ℕ) (x : Tensor3) :
    (QRNN.stepInput act tr p zm dm hidden L u i x).d = u.outWidth := by
  unfold QRNN.stepInput
  split
  · cases tr
    · exact StackLayer.fwd_out_d _ _ _ _ _ _
    · show (u.fwd act true (zm i) x _).1.d = u.outWidth
      exact StackLayer.fwd_out_d _ _ _ _ _ _
  · exact StackLayer.fwd_out_d _ _ _ _ _ _

theorem QRNN.forwardAux_shape (act : Activations) (tr : Bool) (p : ℚ)
    (zm : ℕ → (ℕ → ℕ → ℕ → ℚ) × (ℕ → ℕ → ℕ → ℚ)) (dm : ℕ → ℕ → ℕ → ℕ → ℚ)
    (hidden : Option Tensor3) (L : ℕ) (m : ℕ) :
    ∀ (ls : List StackLayer) (i : ℕ) (x : Tensor3), (∀ u ∈ ls, u.outWidth = m) →
      ((QRNN.forwardAux act tr p zm dm hidden L ls i x).2.1.length = ls.length)
      ∧ (∀ hn2 ∈ (QRNN.forwardAux act tr p zm dm hidden L ls i x).2.1,
          hn2.n = min 1 x.n ∧ hn2.b = x.b ∧ hn2.d = m)
      ∧ (ls ≠ [] →
          (QRNN.forwardAux act tr p zm dm hidden L ls i x).1.n = x.n
          ∧ (QRNN.forwardAux act tr p zm dm hidden L ls i x).1.b = x.b
          ∧ (QRNN.forwardAux act tr p zm dm hidden L ls i x).1.d = m) := by
  intro ls
  induction ls with
  | nil =>
      intro i x hm
      refine ⟨rfl, ?_, ?_⟩
      · intro hn2 hmem
        exact absurd hmem (List.not_mem_nil hn2)
      · intro hne
        exact absurd rfl hne
  | cons u us ih =>
      intro i x hm
      have hmu : u.outWidth = m := hm u (List.mem_cons_self u us)
      have hmus : ∀ u2 ∈ us, u2.outWidth = m := fun u2 h => hm u2 (List.mem_cons_of_mem u h)
      rw [QRNN.forwardAux_cons]
      have hyn := QRNN.stepInput_n act tr p zm dm hidden L u i x
      have hyb := QRNN.stepInput_b act tr p zm dm hidden L u i x
      have hyd := QRNN.stepInput_d act tr p zm dm hidden L u i x
      obtain ⟨ih1, ih2, ih3⟩ :=
        ih (i + 1) (QRNN.stepInput act tr p zm dm hidden L u i x) hmus
      refine ⟨?_, ?_, ?_⟩
      · show ((u.fwd act tr (zm i) x (hidden.map (fun h => sliceLayer h i))).2.1
            :: (QRNN.forwardAux act tr p zm dm hidden L us (i + 1)
                (QRNN.stepInput act tr p zm dm hidden L u i x)).2.1).length
          = us.length + 1
        rw [List.length_cons, ih1]
      · intro hn2 hmem
        rcases List.mem_cons.mp hmem with heq | hmem2
        · subst heq
          exact ⟨StackLayer.fwd_hn_n u act tr (zm i) x _,
            StackLayer.fwd_hn_b u act tr (zm i) x _,
            (StackLayer.fwd_hn_d u act tr (zm i) x _).trans hmu⟩
        · obtain ⟨e1, e2, e3⟩ := ih2 hn2 hmem2
          exact ⟨by rw [e1, hyn], by rw [e2, hyb], e3⟩
      · intro _
        cases us with
        | nil => exact ⟨hyn, hyb, hyd.trans hmu⟩
        | cons v vs =>
            obtain ⟨o1, o2, o3⟩ := ih3 (List.cons_ne_nil v vs)
            exact ⟨by rw [o1, hyn], by rw [o2, hyb], o3⟩

theorem QRNN.stepInput_inference (act : Activations) (p : ℚ)
    (zm : ℕ → (ℕ → ℕ → ℕ → ℚ) × (ℕ → ℕ → ℕ → ℚ)) (dm dm2 : ℕ → ℕ → ℕ → ℕ → ℚ)
    (hidden : Option Tensor3) (L : ℕ) (u : StackLayer) (i : ℕ) (x : Tensor3) :
    QRNN.stepInput act false p zm dm hidden L u i x
      = QRNN.stepInput act false p zm dm2 hidden L u i x := by
  unfold QRNN.stepInput
  split <;> rfl

theorem QRNN.forwardAux_inference (act : Activations) (p : ℚ)
    (zm : ℕ → (ℕ → ℕ → ℕ → ℚ) × (ℕ → ℕ → ℕ → ℚ)) (dm dm2 : ℕ → ℕ → ℕ → ℕ → ℚ)
    (hidden : Option Tensor3) (L : ℕ) :
    ∀ (ls : List StackLayer) (i : ℕ) (x : Tensor3),
      QRNN.forwardAux act false p zm dm hidden L ls i x
        = QRNN.forwardAux act false p zm dm2 hidden L ls i x := by
  intro ls
  induction ls with
  | nil => intro i x; rfl
  | cons u us ih =>
      intro i x
      rw [QRNN.forwardAux_cons, QRNN.forwardAux_cons,
        QRNN.stepInput_inference act p zm dm dm2 hidden L u i x, ih]

theorem QRNN.stepInput_nodrop (act : Activations) (tr : Bool) (p : ℚ)
    (zm : ℕ → (ℕ → ℕ → ℕ → ℚ) × (ℕ → ℕ → ℕ → ℚ)) (dm : ℕ → ℕ → ℕ → ℕ → ℚ)
    (hidden : Option Tensor3) (L : ℕ) (u : StackLayer) (i : ℕ) (x : Tensor3)
    (hi : ¬ i < L - 1) :
    QRNN.stepInput act tr p zm dm hidden L u i x
      = (u.fwd act tr (zm i) x (hidden.map (fun h => sliceLayer h i))).1 := by
  unfold QRNN.stepInput
  rw [if_neg (fun h => hi h.2)]

theorem QRNN.forwardAux_single (act : Activations) (tr : Bool) (p : ℚ)
    (zm : ℕ → (ℕ → ℕ → ℕ → ℚ) × (ℕ → ℕ → ℕ → ℚ)) (dm dm2 : ℕ → ℕ → ℕ → ℕ → ℚ)
    (hidden : Option Tensor3) (u : StackLayer) (x : Tensor3) :
    QRNN.forwardAux act tr p zm dm hidden 1 [u] 0 x
      = QRNN.forwardAux act tr p zm dm2 hidden 1 [u] 0 x := by
  rw [QRNN.forwardAux_cons, QRNN.forwardAux_cons,
    QRNN.stepInput_nodrop act tr p zm dm hidden 1 u 0 x (by omega),
    QRNN.stepInput_nodrop act tr p zm dm2 hidden 1 u 0 x (by omega)]
  rfl

/-- Claim C9: `QRNN.forward` threads each unit's output into the next unit
(layer 0 receiving the external input, unit `i` receiving slice `i` of a
supplied stacked hidden — this data flow is `QRNN.forwardAux_cons`); over a
stack whose units all have output width `m` and an input `(T, B, D_in)` the
output has shape `(T, B, m)` and the stacked final hidden `(num_layers, B,
m)`; inter-layer dropout is the identity in inference mode (the result does
not depend on the dropout sample), is never applied after the final layer
(a one-unit stack ignores the dropout sample even in training), and for
default-constructed stacks with `hidden_size = D_h ≥ 1` every unit's output
width is `2 * D_h` when bidirectional and `D_h` otherwise. -/
theorem claim9_stack_forward (q : QRNN) (act : Activations) (tr : Bool)
    (zm : ℕ → (ℕ → ℕ → ℕ → ℚ) × (ℕ → ℕ → ℕ → ℚ)) (dm : ℕ → ℕ → ℕ → ℕ → ℚ)
    (X : Tensor3) (hidden : Option Tensor3) (m : ℕ)
    (hm : ∀ u ∈ q.layers, u.outWidth = m) (hne : q.layers ≠ []) :
    ((q.forward act tr zm dm X hidden).1.n = X.n
      ∧ (q.forward act tr zm dm X hidden).1.b = X.b
      ∧ (q.forward act tr zm dm X hidden).1.d = m)
    ∧ ((q.forward act tr zm dm X hidden).2.1.n = q.num_layers
      ∧ (q.forward act tr zm dm X hidden).2.1.b = X.b
      ∧ (q.forward act tr zm dm X hidden).2.1.d = m)
    ∧ (∀ dm2, q.forward act false zm dm X hidden = q.forward act false zm dm2 X hidden)
    ∧ (∀ u2, q.layers = [u2] →
        ∀ dm2, q.forward act tr zm dm X hidden = q.forward act tr zm dm2 X hidden)
    ∧ (∀ (i2 hs2 nl2 : ℕ) (sp : Bool) (zo dp : ℚ) (w : ℕ) (og uc bi2 : Bool)
        (wgen : ℕ → (ℕ → ℕ → ℚ) × (ℕ → ℚ) × (ℕ → ℕ → ℚ) × (ℕ → ℚ)) (q2 : QRNN),
        1 ≤ hs2 →
        mkQRNN i2 hs2 nl2 true false dp bi2 none sp zo w og uc wgen = .ok q2 →
        ∀ u ∈ q2.layers, u.outWidth = if bi2 then 2 * hs2 else hs2) := by
  obtain ⟨hlen, hhns, hout⟩ :=
    QRNN.forwardAux_shape act tr q.dropout zm dm hidden q.layers.length m q.layers 0 X hm
  refine ⟨hout hne, ?_, ?_, ?_, ?_⟩
  · rcases hrl : (QRNN.forwardAux act tr q.dropout zm dm hidden q.layers.length
        q.layers 0 X).2.1 with _ | ⟨h0, rest⟩
    · rw [hrl] at hlen
      exact absurd (List.length_eq_zero.mp hlen.symm) hne
    · have hm0 := hhns h0 (by rw [hrl]; exact List.mem_cons_self h0 rest)
      refine ⟨?_, ?_, ?_⟩
      · show (QRNN.stackHidden q.num_layers (QRNN.forwardAux act tr q.dropout zm dm hidden
            q.layers.length q.layers 0 X).2.1).n = q.num_layers
        rw [hrl]
        rfl
      · show (QRNN.stackHidden q.num_layers (QRNN.forwardAux act tr q.dropout zm dm hidden
            q.layers.length q.layers 0 X).2.1).b = X.b
        rw [hrl]
        exact hm0.2.1
      · show (QRNN.stackHidden q.num_layers (QRNN.forwardAux act tr q.dropout zm dm hidden
            q.layers.length q.layers 0 X).2.1).d = m
        rw [hrl]
        exact hm0.2.2
  · intro dm2
    show ((QRNN.forwardAux act false q.dropout zm dm hidden q.layers.length q.layers 0 X).1,
        QRNN.stackHidden q.num_layers (QRNN.forwardAux act false q.dropout zm dm hidden
          q.layers.length q.layers 0 X).2.1,
        { q with layers := (QRNN.forwardAux act false q.dropout zm dm hidden
            q.layers.length q.layers 0 X).2.2 })
      = ((QRNN.forwardAux act false q.dropout zm dm2 hidden q.layers.length q.layers 0 X).1,
        QRNN.stackHidden q.num_layers (QRNN.forwardAux act false q.dropout zm dm2 hidden
          q.layers.length q.layers 0 X).2.1,
        { q with layers := (QRNN.forwardAux act false q.dropout zm dm2 hidden
            q.layers.length q.layers 0 X).2.2 })
    rw [QRNN.forwardAux_inference act q.dropout zm dm dm2 hidden q.layers.length q.layers 0 X]
  · intro u2 hq dm2
    show ((QRNN.forwardAux act tr q.dropout zm dm hidden q.layers.length q.layers 0 X).1,
        QRNN.stackHidden q.num_layers (QRNN.forwardAux act tr q.dropout zm dm hidden
          q.layers.length q.layers 0 X).2.1,
        { q with layers := (QRNN.forwardAux act tr q.dropout zm dm hidden
            q.layers.length q.layers 0 X).2.2 })
      = ((QRNN.forwardAux act tr q.dropout zm dm2 hidden q.layers.length q.layers 0 X).1,
        QRNN.stackHidden q.num_layers (QRNN.forwardAux act tr q.dropout zm dm2 hidden
          q.layers.length q.layers 0 X).2.1,
        { q with layers := (QRNN.forwardAux act tr q.dropout zm dm2 hidden
            q.layers.length q.layers 0 X).2.2 })
    rw [hq]
    rw [show ([u2] : List StackLayer).length = 1 from rfl]
    rw [QRNN.forwardAux_single act tr q.dropout zm dm dm2 hidden u2 X]
  · intro i2 hs2 nl2 sp zo dp w og uc bi2 wgen q2 hhs heq
    obtain ⟨k, rfl⟩ : ∃ k, hs2 = k + 1 := ⟨hs2 - 1, by omega⟩
    cases bi2 with
    | true =>
        have hok : mkQRNN i2 (k + 1) nl2 true false dp true none sp zo w og uc wgen
            = .ok { layers := (List.range nl2).map (fun l =>
                      StackLayer.bi (mkBiDirQRNNLayer (if l = 0 then i2 else (k + 1) * 2)
                        (some (k + 1)) sp zo w og uc (wgen l).1 (wgen l).2.1
                        (wgen l).2.2.1 (wgen l).2.2.2))
                    input_size := i2
                    hidden_size := k + 1
                    num_layers := nl2
                    bias := true
                    batch_first := false
                    dropout := dp
                    bidirectional := true } := rfl
        rw [hok] at heq
        injection heq with heq2
        subst heq2
        intro u hu
        have hu2 : u ∈ (List.range nl2).map (fun l =>
            StackLayer.bi (mkBiDirQRNNLayer (if l = 0 then i2 else (k + 1) * 2)
              (some (k + 1)) sp zo w og uc (wgen l).1 (wgen l).2.1
              (wgen l).2.2.1 (wgen l).2.2.2)) := hu
        obtain ⟨l0, _, rfl⟩ := List.mem_map.mp hu2
        show (k + 1) + (k + 1) = 2 * (k + 1)
        omega
    | false =>
        have hok : mkQRNN i2 (k + 1) nl2 true false dp false none sp zo w og uc wgen
            = .ok { layers := (List.range nl2).map (fun l =>
                      StackLayer.uni (mkQRNNLayer (if l = 0 then i2 else k + 1)
                        (some (k + 1)) sp zo w og uc (wgen l).1 (wgen l).2.1))
                    input_size := i2
                    hidden_size := k + 1
                    num_layers := nl2
                    bias := true
                    batch_first := false
                    dropout := dp
                    bidirectional := false } := rfl
        rw [hok] at heq
        injection heq with heq2
        subst heq2
        intro u hu
        have hu2 : u ∈ (List.range nl2).map (fun l =>
            StackLayer.uni (mkQRNNLayer (if l = 0 then i2 else k + 1)
              (some (k + 1)) sp zo w og uc (wgen l).1 (wgen l).2.1)) := hu
        obtain ⟨l0, _, rfl⟩ := List.mem_map.mp hu2
        show (k + 1) = (k + 1)
        rfl

/-- Witness for C9 on a concrete two-unit stack over the `(2, 1, 1)` input:
the stack shape law evaluated concretely. -/
theorem claim9_stack_forward_witness :
    ((testStack.forward testAct true testZm testDm testX none).1.n = testX.n)
    ∧ ((testStack.forward testAct true testZm testDm testX none).1.d = 1)
    ∧ ((testStack.forward testAct true testZm testDm testX none).2.1.n
        = testStack.num_layers) := by
  have h := claim9_stack_forward testStack testAct true testZm testDm testX none 1
    (by
      intro u hu
      rcases List.mem_cons.mp hu with heq | hu2
      · subst heq; rfl
      · rcases List.mem_cons.mp hu2 with heq | h3
        · subst heq; rfl
        · exact absurd h3 (List.not_mem_nil u))
    (List.cons_ne_nil _ _)
  exact ⟨h.1.1, h.1.2.2, h.2.1.1⟩
